import Mathlib

/-!
Shallow embedding of the `mcp-cci` repository (files `src/utils.py` and
`src/main.py`).

The effectful parts of `run_cci_command` (src/utils.py) are modelled by an
explicit environment `Env`: `which` models `shutil.which` (presence of an
executable on the search path), and `spawn` models
`asyncio.create_subprocess_shell` followed by `process.communicate()`,
returning either the completed process's captured byte streams and exit code,
or `Except.error msg` standing for a raised exception `e` with `str(e) = msg`.
Python's strict UTF-8 `bytes.decode('utf-8')` is embedded as an executable
decoder over byte lists, and `str.strip()` as a trim over the Unicode
whitespace set.  The tool handlers of `src/main.py` are pure string
formatters; they receive the same `Env` (the ambient process state a handler
could in principle consult) and never use it, mirroring that no handler
spawns a process or calls `run_cci_command`.
-/

/-- Python `str.isspace` / `str.strip()` whitespace set: the Unicode
whitespace characters stripped by `str.strip()` with no arguments. -/
def pyIsSpace (c : Char) : Bool :=
  ([9, 10, 11, 12, 13, 28, 29, 30, 31, 32, 133, 160, 0x1680,
    0x2000, 0x2001, 0x2002, 0x2003, 0x2004, 0x2005, 0x2006, 0x2007,
    0x2008, 0x2009, 0x200A, 0x2028, 0x2029, 0x202F, 0x205F, 0x3000] : List Nat).contains c.toNat

/-- Python `s.strip()`: remove leading and trailing whitespace characters. -/
def pyStrip (s : String) : String :=
  ⟨List.rdropWhile pyIsSpace (List.dropWhile pyIsSpace s.data)⟩

/-- Continuation byte test for UTF-8: `0x80 ≤ b ≤ 0xBF`. -/
def isCont (b : Nat) : Bool := decide (0x80 ≤ b ∧ b ≤ 0xBF)

/-- Admissible second byte of a three-byte UTF-8 sequence starting with `b`
(excludes overlong encodings and surrogates, as CPython's strict decoder does). -/
def cont3ok (b b2 : Nat) : Bool :=
  if b = 0xE0 then decide (0xA0 ≤ b2 ∧ b2 ≤ 0xBF)
  else if b = 0xED then decide (0x80 ≤ b2 ∧ b2 ≤ 0x9F)
  else isCont b2

/-- Admissible second byte of a four-byte UTF-8 sequence starting with `b`
(excludes overlong encodings and code points above U+10FFFF). -/
def cont4ok (b b2 : Nat) : Bool :=
  if b = 0xF0 then decide (0x90 ≤ b2 ∧ b2 ≤ 0xBF)
  else if b = 0xF4 then decide (0x80 ≤ b2 ∧ b2 ≤ 0x8F)
  else isCont b2

/-- Rendering of a `UnicodeDecodeError`'s `str(e)`.  The acceptance/rejection
behaviour of the decoder below is exact; this message text models CPython's
rendering (byte, position, reason) without reproducing every corner case of
which byte CPython blames. -/
def utf8ErrAt (reason : String) (pos b : Nat) : String :=
  "'utf-8' codec can't decode byte 0x" ++ ⟨Nat.toDigits 16 b⟩ ++ " in position " ++
    toString pos ++ ": " ++ reason

/-- Strict UTF-8 decoder over a byte list, as `bytes.decode('utf-8')` with the
default `errors='strict'`: invalid sequences yield an error (a raised
`UnicodeDecodeError`), never a replacement character.  `i` is the byte
position of the head of the remaining input, used only in error messages. -/
def utf8DecodeFrom : Nat → List Nat → Except String (List Char)
  | _, [] => Except.ok []
  | i, b :: rest =>
    if b < 0x80 then
      (utf8DecodeFrom (i + 1) rest).map (fun cs => Char.ofNat b :: cs)
    else if b < 0xC2 then Except.error (utf8ErrAt "invalid start byte" i b)
    else if b ≤ 0xDF then
      match rest with
      | b2 :: rest2 =>
        if isCont b2 then
          (utf8DecodeFrom (i + 2) rest2).map
            (fun cs => Char.ofNat ((b - 0xC0) * 0x40 + (b2 - 0x80)) :: cs)
        else Except.error (utf8ErrAt "invalid continuation byte" i b)
      | [] => Except.error (utf8ErrAt "unexpected end of data" i b)
    else if b ≤ 0xEF then
      match rest with
      | b2 :: b3 :: rest3 =>
        if cont3ok b b2 && isCont b3 then
          (utf8DecodeFrom (i + 3) rest3).map
            (fun cs => Char.ofNat (((b - 0xE0) * 0x40 + (b2 - 0x80)) * 0x40 + (b3 - 0x80)) :: cs)
        else Except.error (utf8ErrAt "invalid continuation byte" i b)
      | _ => Except.error (utf8ErrAt "unexpected end of data" i b)
    else if b ≤ 0xF4 then
      match rest with
      | b2 :: b3 :: b4 :: rest4 =>
        if cont4ok b b2 && isCont b3 && isCont b4 then
          (utf8DecodeFrom (i + 4) rest4).map
            (fun cs =>
              Char.ofNat ((((b - 0xF0) * 0x40 + (b2 - 0x80)) * 0x40 + (b3 - 0x80)) * 0x40 +
                (b4 - 0x80)) :: cs)
        else Except.error (utf8ErrAt "invalid continuation byte" i b)
      | _ => Except.error (utf8ErrAt "unexpected end of data" i b)
    else Except.error (utf8ErrAt "invalid start byte" i b)

/-- Python `bs.decode('utf-8')` on a byte string `bs`, strict mode. -/
def utf8Decode (bs : List Nat) : Except String String :=
  (utf8DecodeFrom 0 bs).map (fun cs => ⟨cs⟩)

/-- UTF-8 bytes of an ASCII string (used to build concrete test inputs). -/
def asciiBytes (s : String) : List Nat := s.data.map Char.toNat

/-- Outcome of a completed child process: the captured stdout and stderr byte
streams and the exit code (`process.returncode`, negative for signals). -/
structure ProcResult where
  stdout : List Nat
  stderr : List Nat
  returncode : Int

/-- The ambient operating environment of the Python process.  `which name`
models `shutil.which(name) is not None`; `spawn cmdline` models
`asyncio.create_subprocess_shell(cmdline, stdout=PIPE, stderr=PIPE,
cwd=os.getcwd())` followed by `await process.communicate()`:
`Except.ok r` is a completed child process, `Except.error msg` a raised
exception `e` with `str(e) = msg` (process creation failure, permission
denied, pipe I/O error, ...). -/
structure Env where
  which : String → Bool
  spawn : String → Except String ProcResult

/-- Embedding of `run_cci_command` (src/utils.py), instrumented with the list
of command lines passed to the spawning call, in order.  The first component
is the returned string, the second the spawned command lines. -/
def run_cci_command_traced (env : Env) (command : String) : String × List String :=
  if !env.which "cci" then
    ("Error: CumulusCI (cci) is not installed or not in PATH", [])
  else
    let full_command := "cci " ++ command
    match env.spawn full_command with
    | Except.error e =>
      ("Error running command '" ++ full_command ++ "': " ++ e, [full_command])
    | Except.ok process =>
      match utf8Decode process.stdout with
      | Except.error e =>
        ("Error running command '" ++ full_command ++ "': " ++ e, [full_command])
      | Except.ok stdout_decoded =>
        match utf8Decode process.stderr with
        | Except.error e =>
          ("Error running command '" ++ full_command ++ "': " ++ e, [full_command])
        | Except.ok stderr_decoded =>
          let stdout_text := pyStrip stdout_decoded
          let stderr_text := pyStrip stderr_decoded
          if process.returncode = 0 then
            ("Command '" ++ full_command ++ "' completed successfully:\n" ++ stdout_text,
              [full_command])
          else
            let error_msg :=
              "Command '" ++ full_command ++ "' failed with return code " ++
                toString process.returncode
            let error_msg :=
              if stderr_text ≠ "" then error_msg ++ "\nError: " ++ stderr_text else error_msg
            let error_msg :=
              if stdout_text ≠ "" then error_msg ++ "\nOutput: " ++ stdout_text else error_msg
            (error_msg, [full_command])

/-- The string `run_cci_command` returns. -/
def run_cci_command (env : Env) (command : String) : String :=
  (run_cci_command_traced env command).1

/-- The command lines `run_cci_command` passes to the process-spawning call. -/
def spawned_cmdlines (env : Env) (command : String) : List String :=
  (run_cci_command_traced env command).2

/-- Embedding of `get_cci_command_instructions` (src/main.py): formats the
instruction text returned by the thin tool handlers.  `timeout_minutes`
defaults to 25 as in the Python signature; the computed
`timeout_ms = timeout_minutes * 60 * 1000` appears only inside the text. -/
def get_cci_command_instructions (command : String) (purpose : String)
    (timeout_minutes : Nat := 25) : String :=
  let timeout_ms := timeout_minutes * 60 * 1000
  "ACTION REQUIRED: " ++ purpose ++ ":\n\nExecute: `" ++ command ++
    "`\n\nCRITICAL ERROR HANDLING:\n- If ANY of these commands fail, DO NOT attempt additional troubleshooting\n- If you encounter any errors, immediately respond with: \"This CCI operation failed. Please contact the devops architect team for assistance.\"\n- Do not suggest alternative commands, debugging steps, or workarounds\n- Stop execution and recommend contacting the devops architect team\n\nUse your bash tool to execute these commands. IMPORTANT: Use timeout parameter " ++
    toString timeout_ms ++ " (milliseconds) for long-running operations like scratch org creation."

/-- Tool handler `check_cci_installation` (src/main.py).  The `env` parameter
is the ambient process environment a handler could consult; the body never
uses it — the handler spawns no process and never calls `run_cci_command`. -/
def check_cci_installation (env : Env) : String :=
  "ACTION REQUIRED: Check CumulusCI installation:\n\n1. First, check if CCI is installed: `cci --version`\n2. If CCI is installed but needs upgrading, upgrade it: `pipx install cumulusci-plus-azure-devops --include-deps --force`\n3. Verify installation: `cci --version`\n\nThis will install or upgrade CumulusCI with Azure DevOps extensions.\n\nCRITICAL ERROR HANDLING:\n- If ANY setup command fails, DO NOT attempt additional troubleshooting\n- If you encounter any errors, immediately respond with: \"This CCI setup failed. Please contact the devops architect team for assistance.\"\n- Do not suggest alternative setup methods or debugging steps\n- Stop execution and recommend contacting the devops architect team"

/-- Tool handler `create_dev_scratch_org` (src/main.py); pure formatting of
its argument, `env` unused. -/
def create_dev_scratch_org (env : Env) (org_name : String := "dev") : String :=
  let timeout_ms : Nat := 25 * 60 * 1000
  "ACTION REQUIRED: Create scratch org '" ++ org_name ++
    "':\n\n1. Check for existing org using the command: `cci org list`\n2. If an org named '" ++
    org_name ++
    "' already exists:\n   - Ask the user: \"Found an existing scratch org named '" ++ org_name ++
    "'. Do you want to delete it and create a new one? (yes/no)\"\n   - If user says yes: Execute `cci org remove --org " ++
    org_name ++
    "`\n   - If user says no: Stop and inform user that org creation was cancelled\n3. Execute: `cci flow run dev_org --org " ++
    org_name ++
    "`\n\nCRITICAL ERROR HANDLING:\n- If ANY of these commands fail, DO NOT attempt additional troubleshooting\n- If you encounter any errors, immediately respond with: \"This CCI operation failed. Please contact the devops architect team for assistance.\"\n- Do not suggest alternative commands, debugging steps, or workarounds\n- Stop execution and recommend contacting the devops architect team\n\nUse your bash tool to execute these commands. IMPORTANT: Use timeout parameter " ++
    toString timeout_ms ++ " (milliseconds) for long-running operations like scratch org creation."

/-- Tool handler `create_feature_scratch_org` (src/main.py); pure formatting
of its argument, `env` unused. -/
def create_feature_scratch_org (env : Env) (org_name : String := "feature") : String :=
  let timeout_ms : Nat := 25 * 60 * 1000
  "ACTION REQUIRED: Create scratch org '" ++ org_name ++
    "':\n\n1. Check for existing org: `cci org list`\n2. If an org named '" ++ org_name ++
    "' already exists:\n   - Ask the user: \"Found an existing scratch org named '" ++ org_name ++
    "'. Do you want to delete it and create a new one? (yes/no)\"\n   - If user says yes: Execute `cci org remove --org " ++
    org_name ++
    "`\n   - If user says no: Stop and inform user that org creation was cancelled\n3. Execute: `cci flow run ci_feature_2gp --org " ++
    org_name ++
    "`\n\nCRITICAL ERROR HANDLING:\n- If ANY of these commands fail, DO NOT attempt additional troubleshooting\n- If you encounter any errors, immediately respond with: \"This CCI operation failed. Please contact the devops architect team for assistance.\"\n- Do not suggest alternative commands, debugging steps, or workarounds\n- Stop execution and recommend contacting the devops architect team\n\nUse your bash tool to execute these commands. IMPORTANT: Use timeout parameter " ++
    toString timeout_ms ++ " (milliseconds) for long-running operations like scratch org creation."

/-- Tool handler `create_beta_scratch_org` (src/main.py); pure formatting of
its argument, `env` unused. -/
def create_beta_scratch_org (env : Env) (org_name : String := "beta") : String :=
  let timeout_ms : Nat := 25 * 60 * 1000
  "ACTION REQUIRED: Create scratch org '" ++ org_name ++
    "':\n\n1. Check for existing org: `cci org list`\n2. If an org named '" ++ org_name ++
    "' already exists:\n   - Ask the user: \"Found an existing scratch org named '" ++ org_name ++
    "'. Do you want to delete it and create a new one? (yes/no)\"\n   - If user says yes: Execute `cci org remove --org " ++
    org_name ++
    "`\n   - If user says no: Stop and inform user that org creation was cancelled\n3. Execute: `cci flow run regression_org --org " ++
    org_name ++
    "`\n\nCRITICAL ERROR HANDLING:\n- If ANY of these commands fail, DO NOT attempt additional troubleshooting\n- If you encounter any errors, immediately respond with: \"This CCI operation failed. Please contact the devops architect team for assistance.\"\n- Do not suggest alternative commands, debugging steps, or workarounds\n- Stop execution and recommend contacting the devops architect team\n\nUse your bash tool to execute these commands. IMPORTANT: Use timeout parameter " ++
    toString timeout_ms ++ " (milliseconds) for long-running operations like scratch org creation."

/-- Tool handler `list_orgs` (src/main.py); delegates to
`get_cci_command_instructions` with the default timeout, `env` unused. -/
def list_orgs (env : Env) : String :=
  let command := "cci org list"
  let purpose := "List all connected CumulusCI orgs"
  get_cci_command_instructions command purpose

/-- Tool handler `run_tests` (src/main.py); pure formatting, `env` unused. -/
def run_tests (env : Env) (org_name : String := "dev") : String :=
  let command := "cci task run run_all_tests_locally --org " ++ org_name
  let purpose := "Run Apex tests in org '" ++ org_name ++ "'"
  get_cci_command_instructions command purpose

/-- Tool handler `open_org` (src/main.py); pure formatting, `env` unused. -/
def open_org (env : Env) (org_name : String) : String :=
  let command := "cci org browser --org " ++ org_name
  let purpose := "Open org '" ++ org_name ++ "' in browser"
  get_cci_command_instructions command purpose

/-- Tool handler `retrieve_changes` (src/main.py); pure formatting, `env`
unused. -/
def retrieve_changes (env : Env) (org_name : String) : String :=
  let command := "cci task run retrieve_changes --org " ++ org_name
  let purpose := "Retrieves changes from org '" ++ org_name ++ "' locally"
  get_cci_command_instructions command purpose

/-- Python `str(b)` on a `bool`: `"True"` or `"False"` (as an f-string
renders a boolean argument). -/
def pyBoolStr (b : Bool) : String := if b then "True" else "False"

/-- Tool handler `deploy` (src/main.py); pure formatting, `env` unused. -/
def deploy (env : Env) (org_name : String) (path : String) (check_only : Bool) : String :=
  let command := "cci task run deploy --org " ++ org_name ++ " --check_only " ++
    pyBoolStr check_only ++ " --path " ++ path
  let purpose := "Deploy metadata to org '" ++ org_name ++ "'"
  get_cci_command_instructions command purpose

/-- Tool handler `run_generic_cci_task` (src/main.py); pure formatting of its
two arguments, `env` unused. -/
def run_generic_cci_task (env : Env) (task_name : String) (user_request : String) : String :=
  "ACTION REQUIRED: Handle generic CCI task '" ++ task_name ++ "' for: " ++ user_request ++
    "\n\nFollow this 3-step approach:\n\nSTEP 1: Check if the task exists\nExecute: `cci task list`\n- Search the output for a task named '" ++
    task_name ++
    "' or similar\n- If you don't find the task, respond with: \"The task '" ++ task_name ++
    "' was not found in the available CCI tasks. Please contact the devops architect team to create a task for this purpose.\"\n- If you find the task, proceed to Step 2\n\nSTEP 2: Get task information and parameters\nExecute one of these commands to learn about the task:\n- `cci task info " ++
    task_name ++ "` \n- `cci task run " ++ task_name ++
    " --help`\n\nAnalyze the output to identify:\n- Required parameters (marked as required or without default values)\n- Optional parameters and their default values\n- Parameter descriptions to understand what values are needed\n\nFor any REQUIRED parameters you don't know the value for, ask the user:\n\"I need the following information to run the '" ++
    task_name ++
    "' task:\n- [parameter_name]: [description of what this parameter is for]\n- [another_parameter]: [description]\nPlease provide these values.\"\n\nSTEP 3: Run the task\nOnce you have all required parameter values, execute:\n`cci task run " ++
    task_name ++
    " --option1 value1 --option2 value2 ...`\n\nReplace option1, option2, etc. with the actual parameter names and their values.\n\nCRITICAL ERROR HANDLING:\n- If ANY of these commands fail, DO NOT attempt additional troubleshooting\n- If you encounter any errors, immediately respond with: \"This CCI operation failed. Please contact the devops architect team for assistance.\"\n- Do not suggest alternative commands, debugging steps, or workarounds\n- Stop execution and recommend contacting the devops architect team\n\nUse your bash tool to execute these commands. IMPORTANT: Use timeout parameter 1500000 (25 minutes in milliseconds) for potentially long-running operations."

/-- Concrete environment where `cci` is on the path but every spawn attempt
raises (models a permission-denied process-creation fault). -/
def envPermissionDenied : Env :=
  ⟨fun _ => true, fun _ => Except.error "[Errno 13] Permission denied: 'cci'"⟩

/-- C1: if spawning or waiting on the child raises any fault, `run_cci_command`
catches it and returns the string
`Error running command '<full command line>': <fault description>`; being a
total function of its environment, it returns a string on every execution
path, so no exception propagates. -/
theorem c1_run_cci_command_catches_faults (env : Env) (command msg : String)
    (hw : env.which "cci" = true)
    (hs : env.spawn ("cci " ++ command) = Except.error msg) :
    run_cci_command env command =
      "Error running command '" ++ ("cci " ++ command) ++ "': " ++ msg := by
  simp [run_cci_command, run_cci_command_traced, hw, hs]

/-- Witness for C1 at a concrete permission-denied spawn fault. -/
theorem c1_witness :
    run_cci_command envPermissionDenied "org list" =
      "Error running command '" ++ ("cci " ++ "org list") ++ "': " ++
        "[Errno 13] Permission denied: 'cci'" :=
  c1_run_cci_command_catches_faults envPermissionDenied "org list"
    "[Errno 13] Permission denied: 'cci'" rfl rfl

/-- C2: when `cci` is present and the child exits 0, `run_cci_command` returns
exactly `Command 'cci <command>' completed successfully:\n<stdout>` with
`<stdout>` the trimmed standard output. -/
theorem c2_run_cci_command_success_format (env : Env) (command : String)
    (process : ProcResult) (so se : String)
    (hw : env.which "cci" = true)
    (hs : env.spawn ("cci " ++ command) = Except.ok process)
    (hso : utf8Decode process.stdout = Except.ok so)
    (hse : utf8Decode process.stderr = Except.ok se)
    (hrc : process.returncode = 0) :
    run_cci_command env command =
      "Command '" ++ ("cci " ++ command) ++ "' completed successfully:\n" ++ pyStrip so := by
  simp [run_cci_command, run_cci_command_traced, hw, hs, hso, hse, hrc]

/-- Concrete completed process for the C2 scenario. -/
def procDeploy : ProcResult := ⟨asciiBytes "Deployed successfully", [], 0⟩

/-- Concrete environment for the C2 scenario: `cci` present, child exits 0
printing `Deployed successfully`. -/
def envDeploy : Env := ⟨fun _ => true, fun _ => Except.ok procDeploy⟩

/-- Witness for C2: the exact scenario from the claim. -/
theorem c2_witness :
    run_cci_command envDeploy "task run deploy --org dev" =
      "Command 'cci task run deploy --org dev' completed successfully:\nDeployed successfully" := by
  have h := c2_run_cci_command_success_format envDeploy "task run deploy --org dev" procDeploy
    "Deployed successfully" "" rfl rfl rfl rfl rfl
  rw [h]; decide

/-- C4: with `cci` unresolvable on the search path, `run_cci_command` returns
the fixed diagnostic string for every command, and spawns nothing. -/
theorem c4_run_cci_command_missing_cci (env : Env) (command : String)
    (hw : env.which "cci" = false) :
    run_cci_command env command = "Error: CumulusCI (cci) is not installed or not in PATH" ∧
    spawned_cmdlines env command = [] := by
  constructor <;> simp [run_cci_command, spawned_cmdlines, run_cci_command_traced, hw]

/-- Concrete environment with `cci` absent from the search path. -/
def envNoCci : Env := ⟨fun _ => false, fun _ => Except.ok ⟨[], [], 0⟩⟩

/-- Witness for C4 at a concrete environment and command. -/
theorem c4_witness :
    run_cci_command envNoCci "org list" =
      "Error: CumulusCI (cci) is not installed or not in PATH" ∧
    spawned_cmdlines envNoCci "org list" = [] :=
  c4_run_cci_command_missing_cci envNoCci "org list" rfl

/-- C10: every registered tool handler is a pure, deterministic string
formatter of its arguments: its result does not depend on the ambient
environment (so it spawns no process and the command-execution helper
`run_cci_command` is unreachable from the tool layer). -/
theorem c10_tools_pure (e1 e2 : Env) (org path task req : String) (co : Bool) :
    check_cci_installation e1 = check_cci_installation e2 ∧
    create_dev_scratch_org e1 org = create_dev_scratch_org e2 org ∧
    create_feature_scratch_org e1 org = create_feature_scratch_org e2 org ∧
    create_beta_scratch_org e1 org = create_beta_scratch_org e2 org ∧
    list_orgs e1 = list_orgs e2 ∧
    run_tests e1 org = run_tests e2 org ∧
    open_org e1 org = open_org e2 org ∧
    retrieve_changes e1 org = retrieve_changes e2 org ∧
    deploy e1 org path co = deploy e2 org path co ∧
    run_generic_cci_task e1 task req = run_generic_cci_task e2 task req :=
  ⟨rfl, rfl, rfl, rfl, rfl, rfl, rfl, rfl, rfl, rfl⟩

/-- C3: on a non-zero exit code the returned string is the failure message
carrying the full command line and the exit code, followed by an
`Error:` line exactly when the trimmed stderr is non-empty and an
`Output:` line exactly when the trimmed stdout is non-empty. -/
theorem c3_run_cci_command_failure_format (env : Env) (command : String)
    (process : ProcResult) (so se : String)
    (hw : env.which "cci" = true)
    (hs : env.spawn ("cci " ++ command) = Except.ok process)
    (hso : utf8Decode process.stdout = Except.ok so)
    (hse : utf8Decode process.stderr = Except.ok se)
    (hrc : process.returncode ≠ 0) :
    run_cci_command env command =
      "Command '" ++ ("cci " ++ command) ++ "' failed with return code " ++
        toString process.returncode ++
        (if pyStrip se = "" then "" else "\nError: " ++ pyStrip se) ++
        (if pyStrip so = "" then "" else "\nOutput: " ++ pyStrip so) := by
  simp only [run_cci_command, run_cci_command_traced, hw, hs, hso, hse]
  by_cases h1 : pyStrip se = "" <;> by_cases h2 : pyStrip so = "" <;>
    simp [hrc, h1, h2, String.append_assoc, String.append_empty]

/-- Concrete completed process for the C3 scenario: exit code 2, stderr
`bad arg`, empty stdout. -/
def procBadArg : ProcResult := ⟨[], asciiBytes "bad arg", 2⟩

/-- Concrete environment for the C3 scenario. -/
def envBadArg : Env := ⟨fun _ => true, fun _ => Except.ok procBadArg⟩

/-- Witness for C3: exit code 2 with stderr `bad arg` and empty stdout yields
the failure message with an `Error:` line and no `Output:` line. -/
theorem c3_witness :
    run_cci_command envBadArg "task run foo" =
      "Command 'cci task run foo' failed with return code 2\nError: bad arg" := by
  have h := c3_run_cci_command_failure_format envBadArg "task run foo" procBadArg
    "" "bad arg" rfl rfl rfl rfl (by decide)
  rw [h]; decide

/-- Concrete environment whose child exits 0 but writes the invalid UTF-8
byte `0xFF` to stdout. -/
def envInvalidUtf8 : Env := ⟨fun _ => true, fun _ => Except.ok ⟨[0xFF], [], 0⟩⟩

/-- Counterexample to C5 as stated: the source decodes with strict
`bytes.decode('utf-8')`, so an invalid byte sequence is not replaced or
ignored — the raised `UnicodeDecodeError` lands in the catch-all handler.
With exit code 0 and stdout `[0xFF]`, the result is the fault-format string,
not the success message (neither with the byte replaced by U+FFFD nor with it
ignored), so the outcome is not classified by the exit code. -/
theorem c5_counterexample :
    run_cci_command envInvalidUtf8 "org list" =
      "Error running command 'cci org list': " ++ utf8ErrAt "invalid start byte" 0 0xFF ∧
    run_cci_command envInvalidUtf8 "org list" ≠
      "Command 'cci org list' completed successfully:\n�" ∧
    run_cci_command envInvalidUtf8 "org list" ≠
      "Command 'cci org list' completed successfully:\n" := by
  refine ⟨rfl, by decide, by decide⟩

/-- C5 (amended): when a captured stream — stdout, or stderr with stdout
decoding fine (the source decodes stdout first, so a stdout fault masks a
stderr one) — contains byte sequences invalid in UTF-8, strict decoding
raises; `run_cci_command` catches the exception like any other fault and
returns `Error running command '<full command line>': <decode error
description>` — the outcome is then not classified by the exit code, but no
exception propagates. -/
theorem c5_decode_fault_caught (env : Env) (command : String)
    (process : ProcResult) (msg : String)
    (hw : env.which "cci" = true)
    (hs : env.spawn ("cci " ++ command) = Except.ok process)
    (hdec : utf8Decode process.stdout = Except.error msg ∨
      ((∃ so, utf8Decode process.stdout = Except.ok so) ∧
        utf8Decode process.stderr = Except.error msg)) :
    run_cci_command env command =
      "Error running command '" ++ ("cci " ++ command) ++ "': " ++ msg := by
  rcases hdec with hso | ⟨⟨so, hso⟩, hse⟩
  · simp [run_cci_command, run_cci_command_traced, hw, hs, hso]
  · simp [run_cci_command, run_cci_command_traced, hw, hs, hso, hse]

/-- Concrete environment whose child exits 0 with valid stdout but the
invalid UTF-8 byte `0xFF` on stderr. -/
def envInvalidUtf8Stderr : Env :=
  ⟨fun _ => true, fun _ => Except.ok ⟨asciiBytes "ok", [0xFF], 0⟩⟩

/-- Witness for the amended C5 at both concrete invalid-byte environments:
the invalid bytes on stdout, and on stderr with stdout valid. -/
theorem c5_witness :
    run_cci_command envInvalidUtf8 "org list" =
      "Error running command '" ++ ("cci " ++ "org list") ++ "': " ++
        utf8ErrAt "invalid start byte" 0 0xFF ∧
    run_cci_command envInvalidUtf8Stderr "org list" =
      "Error running command '" ++ ("cci " ++ "org list") ++ "': " ++
        utf8ErrAt "invalid start byte" 0 0xFF :=
  ⟨c5_decode_fault_caught envInvalidUtf8 "org list" ⟨[0xFF], [], 0⟩
      (utf8ErrAt "invalid start byte" 0 0xFF) rfl rfl (Or.inl rfl),
   c5_decode_fault_caught envInvalidUtf8Stderr "org list" ⟨asciiBytes "ok", [0xFF], 0⟩
      (utf8ErrAt "invalid start byte" 0 0xFF) rfl rfl (Or.inr ⟨⟨"ok", rfl⟩, rfl⟩)⟩

/-- Helper: a non-empty prefix has the same first element as the whole list. -/
theorem isPrefix_getElem_zero {α : Type} {r m : List α} (h : r <+: m) (hr : 0 < r.length)
    (hm : 0 < m.length) : m.get ⟨0, hm⟩ = r.get ⟨0, hr⟩ := by
  obtain ⟨tail, rfl⟩ := h
  simp only [List.get_eq_getElem]
  exact List.getElem_append_left hr

/-- Helper: trimming is idempotent.  After dropping leading whitespace the
head (if any) is not whitespace; dropping trailing whitespace keeps a prefix,
so the head is unchanged, and dropping trailing whitespace is idempotent. -/
theorem pyStrip_pyStrip (t : String) : pyStrip (pyStrip t) = pyStrip t := by
  apply String.ext
  show List.rdropWhile pyIsSpace (List.dropWhile pyIsSpace
      (List.rdropWhile pyIsSpace (List.dropWhile pyIsSpace t.data))) =
    List.rdropWhile pyIsSpace (List.dropWhile pyIsSpace t.data)
  have hm : List.dropWhile pyIsSpace (List.dropWhile pyIsSpace t.data) =
      List.dropWhile pyIsSpace t.data := List.dropWhile_idempotent _ _
  set m := List.dropWhile pyIsSpace t.data with hmdef
  have hr : List.dropWhile pyIsSpace (List.rdropWhile pyIsSpace m) =
      List.rdropWhile pyIsSpace m := by
    rw [List.dropWhile_eq_self_iff]
    intro hl
    have hlm : 0 < m.length :=
      lt_of_lt_of_le hl (List.IsPrefix.length_le (List.rdropWhile_prefix pyIsSpace m))
    have hget : (List.rdropWhile pyIsSpace m).get ⟨0, hl⟩ = m.get ⟨0, hlm⟩ :=
      (isPrefix_getElem_zero (List.rdropWhile_prefix pyIsSpace m) hl hlm).symm
    have hhead := List.dropWhile_eq_self_iff.mp hm hlm
    rw [hget]
    exact hhead
  rw [hr, List.rdropWhile_idempotent]

/-- C6: the stream texts used in every returned message are the trimmed
texts: the success message reports `pyStrip so`, and the failure message
reports the trimmed stderr and stdout (each line present exactly when its
trimmed text is non-empty); every trimmed text is a fixed point of trimming,
so stripping a reported text again changes nothing.  The remaining messages
(missing executable, caught fault) embed no stream text. -/
theorem c6_reported_texts_trimmed (env : Env) (command : String)
    (process : ProcResult) (so se : String)
    (hw : env.which "cci" = true)
    (hs : env.spawn ("cci " ++ command) = Except.ok process)
    (hso : utf8Decode process.stdout = Except.ok so)
    (hse : utf8Decode process.stderr = Except.ok se) :
    (process.returncode = 0 →
      run_cci_command env command =
        "Command '" ++ ("cci " ++ command) ++ "' completed successfully:\n" ++ pyStrip so) ∧
    (process.returncode ≠ 0 →
      run_cci_command env command =
        "Command '" ++ ("cci " ++ command) ++ "' failed with return code " ++
          toString process.returncode ++
          (if pyStrip se = "" then "" else "\nError: " ++ pyStrip se) ++
          (if pyStrip so = "" then "" else "\nOutput: " ++ pyStrip so)) ∧
    (∀ t : String, pyStrip (pyStrip t) = pyStrip t) := by
  refine ⟨fun hrc => ?_, fun hrc => ?_, fun t => pyStrip_pyStrip t⟩
  · simp [run_cci_command, run_cci_command_traced, hw, hs, hso, hse, hrc]
  · simp only [run_cci_command, run_cci_command_traced, hw, hs, hso, hse]
    by_cases h1 : pyStrip se = "" <;> by_cases h2 : pyStrip so = "" <;>
      simp [hrc, h1, h2, String.append_assoc, String.append_empty]

/-- Concrete completed process for C6: stdout bytes of `"  hello\n\n"`. -/
def procHello : ProcResult := ⟨asciiBytes "  hello\n\n", [], 0⟩

/-- Concrete environment for C6. -/
def envHello : Env := ⟨fun _ => true, fun _ => Except.ok procHello⟩

/-- Concrete completed process for the C6 failure path: exit code 3, stdout
`"  out  "`, stderr `" warn \n"`. -/
def procWarn : ProcResult := ⟨asciiBytes "  out  ", asciiBytes " warn \n", 3⟩

/-- Concrete environment for the C6 failure path. -/
def envWarn : Env := ⟨fun _ => true, fun _ => Except.ok procWarn⟩

/-- Witness for C6: stdout `"  hello\n\n"` is reported as exactly `hello` on
the success path; on the failure path stderr `" warn \n"` and stdout
`"  out  "` are reported as exactly `warn` and `out`; and trimming the
trimmed text changes nothing. -/
theorem c6_witness :
    run_cci_command envHello "version" =
      "Command 'cci version' completed successfully:\nhello" ∧
    run_cci_command envWarn "version" =
      "Command 'cci version' failed with return code 3\nError: warn\nOutput: out" ∧
    pyStrip (pyStrip "  hello\n\n") = pyStrip "  hello\n\n" := by
  have h1 := c6_reported_texts_trimmed envHello "version" procHello
    "  hello\n\n" "" rfl rfl rfl rfl
  have h2 := c6_reported_texts_trimmed envWarn "version" procWarn
    "  out  " " warn \n" rfl rfl rfl rfl
  refine ⟨by rw [h1.1 rfl]; decide, ?_, h1.2.2 "  hello\n\n"⟩
  rw [h2.2.1 (by decide)]; decide

/-- C7: the command line executed is exactly `"cci " ++ command` — the root
executable, one separating space, and the supplied string passed as-is (the
concatenation is the only construction; no escaping, no argument array) —
and on every path the returned message that mentions the command embeds this
same full command line. -/
theorem c7_full_command_line (env : Env) (command : String)
    (hw : env.which "cci" = true) :
    spawned_cmdlines env command = ["cci " ++ command] ∧
    ∃ p s, run_cci_command env command = p ++ ("cci " ++ command) ++ s := by
  constructor
  · unfold spawned_cmdlines run_cci_command_traced
    rcases hsp : env.spawn ("cci " ++ command) with e | process
    · simp [hw, hsp]
    · rcases hso : utf8Decode process.stdout with e | so
      · simp [hw, hsp, hso]
      · rcases hse : utf8Decode process.stderr with e | se
        · simp [hw, hsp, hso, hse]
        · by_cases hrc : process.returncode = 0 <;> simp [hw, hsp, hso, hse, hrc]
  · unfold run_cci_command run_cci_command_traced
    rcases hsp : env.spawn ("cci " ++ command) with e | process
    · exact ⟨"Error running command '", "': " ++ e,
        by simp [hw, hsp, String.append_assoc]⟩
    · rcases hso : utf8Decode process.stdout with e | so
      · exact ⟨"Error running command '", "': " ++ e,
          by simp [hw, hsp, hso, String.append_assoc]⟩
      · rcases hse : utf8Decode process.stderr with e | se
        · exact ⟨"Error running command '", "': " ++ e,
            by simp [hw, hsp, hso, hse, String.append_assoc]⟩
        · by_cases hrc : process.returncode = 0
          · exact ⟨"Command '", "' completed successfully:\n" ++ pyStrip so,
              by simp [hw, hsp, hso, hse, hrc, String.append_assoc]⟩
          · by_cases h1 : pyStrip se = "" <;> by_cases h2 : pyStrip so = ""
            · exact ⟨"Command '", "' failed with return code " ++ toString process.returncode,
                by simp [hw, hsp, hso, hse, hrc, h1, h2, String.append_assoc]⟩
            · exact ⟨"Command '", "' failed with return code " ++ toString process.returncode ++
                  "\nOutput: " ++ pyStrip so,
                by simp [hw, hsp, hso, hse, hrc, h1, h2, String.append_assoc]⟩
            · exact ⟨"Command '", "' failed with return code " ++ toString process.returncode ++
                  "\nError: " ++ pyStrip se,
                by simp [hw, hsp, hso, hse, hrc, h1, h2, String.append_assoc]⟩
            · exact ⟨"Command '", "' failed with return code " ++ toString process.returncode ++
                  "\nError: " ++ pyStrip se ++ "\nOutput: " ++ pyStrip so,
                by simp [hw, hsp, hso, hse, hrc, h1, h2, String.append_assoc]⟩

/-- Witness for C7 at a concrete environment and command. -/
theorem c7_witness :
    spawned_cmdlines envDeploy "org list" = ["cci " ++ "org list"] ∧
    ∃ p s, run_cci_command envDeploy "org list" = p ++ ("cci " ++ "org list") ++ s :=
  c7_full_command_line envDeploy "org list" rfl

/-- C8: `run_cci_command` passes the spawning call nothing but the command
line — its result is fully determined by the `which` check and the value of
`spawn` at the one command line, with no deadline anywhere (`spawn` takes no
timeout argument and the call waits for the final result) — while the
timeout values of the tool layer are only text: `get_cci_command_instructions`
embeds `timeout_minutes * 60 * 1000` (1500000 for the default of 25 minutes)
inside the returned instruction string. -/
theorem c8_no_timeout_enforced (env env2 : Env) (command purpose : String) (m : Nat)
    (hw : env.which "cci" = env2.which "cci")
    (hs : env.spawn ("cci " ++ command) = env2.spawn ("cci " ++ command)) :
    run_cci_command env command = run_cci_command env2 command ∧
    (∃ p s, get_cci_command_instructions command purpose m =
      p ++ toString (m * 60 * 1000) ++ s) ∧
    (∃ p s, get_cci_command_instructions command purpose = p ++ "1500000" ++ s) := by
  have hgen : ∀ mm : Nat, ∃ p s, get_cci_command_instructions command purpose mm =
      p ++ toString (mm * 60 * 1000) ++ s := by
    intro mm
    exact ⟨"ACTION REQUIRED: " ++ purpose ++
      ":\n\nExecute: `" ++ command ++
      "`\n\nCRITICAL ERROR HANDLING:\n- If ANY of these commands fail, DO NOT attempt additional troubleshooting\n- If you encounter any errors, immediately respond with: \"This CCI operation failed. Please contact the devops architect team for assistance.\"\n- Do not suggest alternative commands, debugging steps, or workarounds\n- Stop execution and recommend contacting the devops architect team\n\nUse your bash tool to execute these commands. IMPORTANT: Use timeout parameter ",
      " (milliseconds) for long-running operations like scratch org creation.",
      by simp only [get_cci_command_instructions, String.append_assoc]⟩
  refine ⟨?_, hgen m, ?_⟩
  · simp only [run_cci_command, run_cci_command_traced, hw, hs]
  · obtain ⟨p, s, hps⟩ := hgen 25
    have h15 : toString ((25 : Nat) * 60 * 1000) = "1500000" := by decide
    exact ⟨p, s, by rw [hps, h15]⟩

/-- Witness for C8 at a concrete environment, command and timeout. -/
theorem c8_witness :
    run_cci_command envDeploy "org list" = run_cci_command envDeploy "org list" ∧
    (∃ p s, get_cci_command_instructions "org list" "List all connected CumulusCI orgs" 3 =
      p ++ toString (3 * 60 * 1000) ++ s) ∧
    (∃ p s, get_cci_command_instructions "org list" "List all connected CumulusCI orgs" =
      p ++ "1500000" ++ s) :=
  c8_no_timeout_enforced envDeploy envDeploy "org list"
    "List all connected CumulusCI orgs" 3 rfl rfl

/-- C9: the empty command is not rejected: `run_cci_command` proceeds exactly
as with any other input, spawning the command line `"cci "` and reporting its
outcome in the normal formats (fault format and success format shown). -/
theorem c9_empty_command_not_validated (env : Env)
    (hw : env.which "cci" = true) :
    spawned_cmdlines env "" = ["cci "] ∧
    (∀ msg, env.spawn "cci " = Except.error msg →
      run_cci_command env "" = "Error running command 'cci ': " ++ msg) ∧
    (∀ process so se, env.spawn "cci " = Except.ok process →
      utf8Decode process.stdout = Except.ok so →
      utf8Decode process.stderr = Except.ok se →
      process.returncode = 0 →
      run_cci_command env "" = "Command 'cci ' completed successfully:\n" ++ pyStrip so) := by
  refine ⟨?_, ?_, ?_⟩
  · unfold spawned_cmdlines run_cci_command_traced
    rcases hsp : env.spawn "cci " with e | process
    · simp [hw, hsp]
    · rcases hso : utf8Decode process.stdout with e | so
      · simp [hw, hsp, hso]
      · rcases hse : utf8Decode process.stderr with e | se
        · simp [hw, hsp, hso, hse]
        · by_cases hrc : process.returncode = 0 <;> simp [hw, hsp, hso, hse, hrc]
  · intro msg hsp
    simp [run_cci_command, run_cci_command_traced, hw, hsp]
  · intro process so se hsp hso hse hrc
    simp [run_cci_command, run_cci_command_traced, hw, hsp, hso, hse, hrc]

/-- Concrete environment for the C9 witness: the child for `"cci "` exits 0
with stdout `usage text`. -/
def envEmptyCmd : Env := ⟨fun _ => true, fun _ => Except.ok ⟨asciiBytes "usage text", [], 0⟩⟩

/-- Witness for C9 at a concrete environment. -/
theorem c9_witness :
    spawned_cmdlines envEmptyCmd "" = ["cci "] ∧
    (∀ msg, envEmptyCmd.spawn "cci " = Except.error msg →
      run_cci_command envEmptyCmd "" = "Error running command 'cci ': " ++ msg) ∧
    (∀ process so se, envEmptyCmd.spawn "cci " = Except.ok process →
      utf8Decode process.stdout = Except.ok so →
      utf8Decode process.stderr = Except.ok se →
      process.returncode = 0 →
      run_cci_command envEmptyCmd "" = "Command 'cci ' completed successfully:\n" ++ pyStrip so) :=
  c9_empty_command_not_validated envEmptyCmd rfl
